import Mathlib

/-!
Shallow embedding of `src/object_permissions/media/js/users.js`: the
browser-side widget that manages per-object user/group permissions.
The DOM state the script touches is modelled explicitly (the rows of the
`#op_users` container, the `#errors` list, and the qtip popover), and each
jQuery event handler becomes a Lean function from that state (plus the
handler's inputs) to the new state, paired with the request it sends.
-/

/-- A row of the `#op_users` container: a DOM element with an `id` attribute
and its rendered HTML source. -/
structure Row where
  id : String
  html : String
deriving DecidableEq, Repr

/-- The DOM state the script observes and mutates: the rows of `#op_users`
(in document order), the `<li>` items of `#errors`, the number of live qtip
popover instances (`popovers`), and whether a popover is currently shown
(`shown`).  `qtip('destroy')` removes every instance; `qtip('hide')` merely
hides it. -/
structure PanelState where
  rows : List Row
  errors : List String
  popovers : Nat
  shown : Bool
deriving DecidableEq, Repr

/-- A JavaScript value as delivered to a success callback: the shapes the
server protocol uses (a JSON-decoded string or object of string error
messages) plus the other JSON scalars, so that `typeof` dispatch is modelled
on non-string values too.  Object values are the error-message strings the
code interpolates. -/
inductive JSVal where
  | str (s : String)
  | num (n : Int)
  | jbool (b : Bool)
  | null
  | obj (kvs : List (String × String))
deriving DecidableEq, Repr

/-- JavaScript `typeof` on a `JSVal` (`typeof null` is `"object"`). -/
def jsTypeof : JSVal → String
  | .str _ => "string"
  | .num _ => "number"
  | .jbool _ => "boolean"
  | .null => "object"
  | .obj _ => "object"

/-- JavaScript `for (var key in v)`: the enumerable own properties, in
insertion order; non-objects enumerate nothing. -/
def jsForIn : JSVal → List (String × String)
  | .obj kvs => kvs
  | _ => []

/-- JavaScript `s.substring(n)`: the characters of `s` from index `n` on. -/
def jsSubstring (s : String) (n : Nat) : String :=
  String.mk (s.data.drop n)

/-- The characters up to (excluding) the next double quote. -/
def takeUntilQuote : List Char → List Char
  | [] => []
  | c :: cs => if c = '"' then [] else c :: takeUntilQuote cs

/-- The characters between the first `id="` and the following quote. -/
def findIdAttr : List Char → List Char
  | 'i' :: 'd' :: '=' :: '"' :: rest => takeUntilQuote rest
  | _ :: cs => findIdAttr cs
  | [] => []

/-- The id attribute `$(fragment).attr('id')` reads off an HTML fragment:
the text between the first `id="` and the following quote. -/
def extractId (s : String) : String :=
  String.mk (findIdAttr s.data)

/-- `$(responseText)`: parsing an HTML fragment yields a DOM element whose
id is the fragment's id attribute and whose source is the fragment. -/
def parseFragment (s : String) : Row :=
  ⟨extractId s, s⟩

/-- `$('.qtip').qtip('destroy')`: every popover instance is removed. -/
def qtip_destroy (st : PanelState) : PanelState :=
  { st with popovers := 0, shown := false }

/-- `$('.qtip').qtip('hide')`: the popover is hidden but not removed. -/
def qtip_hide (st : PanelState) : PanelState :=
  { st with shown := false }

/-- `$(this).qtip({... show ready:true ...})`: one new popover instance is
created and shown. -/
def qtip_create (st : PanelState) : PanelState :=
  { st with popovers := st.popovers + 1, shown := true }

/-- A request `$.post(user_url, data, ..., "json")` or an `ajaxSubmit` sends:
its URL and its parameters. -/
inductive ReqData where
  | userReq (user : String) (obj : String)
  | groupReq (group : String) (obj : String)
  | formFields
deriving DecidableEq, Repr

/-- A request about to go over the wire. -/
structure PostReq where
  url : String
  data : ReqData
deriving DecidableEq, Repr

/-- `update_user_permissions(responseText, statusText, xhr, $form)`, the
success callback of the permissions form submission (users.js lines
101-127).  `ct` is `xhr.getResponseHeader('Content-Type')`; `responseText`
is the decoded body when that header is `application/json` and the raw HTML
text otherwise (so in the non-JSON branch only the `.str` case is
reachable; the others leave the rows untouched). -/
def update_user_permissions (ct : String) (responseText : JSVal)
    (st : PanelState) : PanelState :=
  if ct = "application/json" then
    if jsTypeof responseText = "string" then
      match responseText with
      | .str s =>
          let st1 := qtip_hide st
          { st1 with rows := st1.rows.filter (fun r => !(r.id == s)) }
      | _ => st
    else
      { st with errors := st.errors ++ (jsForIn responseText).map (fun kv => kv.2) }
  else
    let st1 := qtip_hide st
    match responseText with
    | .str s =>
        let html := parseFragment s
        let hid := html.id
        let row := st1.rows.filter (fun r => r.id == hid)
        if row.length = 1 then
          { st1 with rows := st1.rows.map (fun r => if r.id == hid then html else r) }
        else
          { st1 with rows := st1.rows ++ [html] }
    | _ => st1

/-- The synchronous part of the `.user .delete` click handler (users.js
lines 45-60): on a confirmed prompt it destroys any popover and posts
`{user: id, obj: obj_id}` to `user_url`, where `id` is the row's DOM id
with its first 5 characters stripped; on a declined prompt nothing
happens. -/
def delete_user_click (user_url obj_id : String) (st : PanelState)
    (domId : String) (confirmed : Bool) : PanelState × Option PostReq :=
  if confirmed then
    (qtip_destroy st,
     some ⟨user_url, ReqData.userReq (jsSubstring domId 5) obj_id⟩)
  else (st, none)

/-- The success callback of the delete-user post: if the decoded JSON value
is a string, `$("#user_" + id).remove()` removes the first element with
that id; otherwise nothing happens. -/
def delete_user_callback (id : String) (code : JSVal)
    (st : PanelState) : PanelState :=
  if jsTypeof code = "string" then
    { st with rows := st.rows.eraseP (fun r => r.id == "user_" ++ id) }
  else st

/-- The synchronous part of the `.group .delete` click handler (users.js
lines 63-77): on a confirmed prompt it posts `{group: id, obj: obj_id}` to
`user_url`, where `id` is the row's DOM id with its first 6 characters
stripped.  Unlike the user handler, it does not destroy the popover. -/
def delete_group_click (user_url obj_id : String) (st : PanelState)
    (domId : String) (confirmed : Bool) : PanelState × Option PostReq :=
  if confirmed then
    (st, some ⟨user_url, ReqData.groupReq (jsSubstring domId 6) obj_id⟩)
  else (st, none)

/-- The success callback of the delete-group post: if the decoded JSON value
is a string, `$("#group_" + id).remove()` removes the first element with
that id; otherwise nothing happens. -/
def delete_group_callback (id : String) (code : JSVal)
    (st : PanelState) : PanelState :=
  if jsTypeof code = "string" then
    { st with rows := st.rows.eraseP (fun r => r.id == "group_" ++ id) }
  else st

/-- An operation that opens a popover: the `#add_user` click handler
(users.js lines 17-33) or the `.permissions` click handler (lines 80-98).
They differ only in the content URL and qtip styling, which the panel state
does not record. -/
inductive OpenOp where
  | addUser
  | editPerms
deriving DecidableEq, Repr

/-- Both popover-opening handlers run `$('.qtip').qtip('destroy')` and then
create one new qtip. -/
def open_popover (st : PanelState) (_op : OpenOp) : PanelState :=
  qtip_create (qtip_destroy st)

/-- The delete-user interaction end to end: the click, then — only if a
request was sent and the transport succeeded — the success callback on the
decoded value.  `none` is a transport-level failure: `$.post` registers no
error callback, so nothing further runs. -/
def delete_user_flow (user_url obj_id : String) (st : PanelState)
    (domId : String) (confirmed : Bool) (transport : Option JSVal) : PanelState :=
  let step := delete_user_click user_url obj_id st domId confirmed
  match step.2, transport with
  | some _, some code => delete_user_callback (jsSubstring domId 5) code step.1
  | _, _ => step.1

/-- The delete-group interaction end to end, with the same transport model
as `delete_user_flow`. -/
def delete_group_flow (user_url obj_id : String) (st : PanelState)
    (domId : String) (confirmed : Bool) (transport : Option JSVal) : PanelState :=
  let step := delete_group_click user_url obj_id st domId confirmed
  match step.2, transport with
  | some _, some code => delete_group_callback (jsSubstring domId 6) code step.1
  | _, _ => step.1

/-- The form-submit handler plus transport (users.js lines 36-42): it first
empties `#errors`, then `ajaxSubmit({success: update_user_permissions})` —
on transport success the callback runs on the response's content type and
body; `ajaxSubmit` registers no error callback, so on failure nothing
further runs. -/
def form_submit_flow (st : PanelState)
    (transport : Option (String × JSVal)) : PanelState :=
  let st1 := { st with errors := [] }
  match transport with
  | some (ct, body) => update_user_permissions ct body st1
  | none => st1

/-- The event bindings the document-ready handler manages: how many click
(or live) handlers are attached to each control. -/
structure Bindings where
  add_user : Nat
  submit_live : Nat
  user_delete : Nat
  group_delete : Nat
  permissions : Nat
deriving DecidableEq, Repr

/-- The document-ready handler (users.js lines 7-98): it first unbinds
(`unbind()` / `die()`) every handler it manages, then binds each click
handler once.  (Nothing is ever bound live to
`.object_permissions_form .submit`, so its count only ever goes to 0.) -/
def document_ready (b : Bindings) : Bindings :=
  let b1 : Bindings := { b with add_user := 0 }
  let b2 : Bindings := { b1 with submit_live := 0 }
  let b3 : Bindings := { b2 with user_delete := 0 }
  let b4 : Bindings := { b3 with group_delete := 0 }
  let b5 : Bindings := { b4 with permissions := 0 }
  { b5 with
    add_user := b5.add_user + 1,
    user_delete := b5.user_delete + 1,
    group_delete := b5.group_delete + 1,
    permissions := b5.permissions + 1 }

/-- The controls the document-ready handler binds click handlers to. -/
inductive Control where
  | add_user
  | user_delete
  | group_delete
  | permissions
deriving DecidableEq, Repr

/-- How many times one click on a control fires its handler: once per
attached binding. -/
def handler_fires (b : Bindings) : Control → Nat
  | .add_user => b.add_user
  | .user_delete => b.user_delete
  | .group_delete => b.group_delete
  | .permissions => b.permissions

/-! ## Helper lemmas -/

theorem jsSubstring_user_prefix (s : String) : jsSubstring ("user_" ++ s) 5 = s := by
  cases s with
  | mk l => rfl

theorem jsSubstring_group_prefix (s : String) : jsSubstring ("group_" ++ s) 6 = s := by
  cases s with
  | mk l => rfl

theorem filter_beq_nil_of_no_match (hid : String) (l : List Row)
    (h : ∀ r ∈ l, ¬ r.id = hid) : l.filter (fun r => r.id == hid) = [] := by
  induction l with
  | nil => rfl
  | cons a tl ih =>
      have ha : ¬ a.id = hid := h a (List.mem_cons_self a tl)
      have htl : ∀ r ∈ tl, ¬ r.id = hid := fun r hr => h r (List.mem_cons_of_mem a hr)
      simp [List.filter_cons, ha, ih htl]

theorem map_replace_no_match (hid : String) (html : Row) (l : List Row)
    (h : ∀ r ∈ l, ¬ r.id = hid) :
    l.map (fun r => if r.id == hid then html else r) = l := by
  induction l with
  | nil => rfl
  | cons a tl ih =>
      have ha : (a.id == hid) = false :=
        beq_eq_false_iff_ne.mpr (h a (List.mem_cons_self a tl))
      have htl : ∀ r ∈ tl, ¬ r.id = hid := fun r hr => h r (List.mem_cons_of_mem a hr)
      simp only [List.map_cons, ha, ih htl]
      simp

theorem eraseP_single_match (hid : String) (pre post : List Row) (row : Row)
    (hrow : row.id = hid) (hpre : ∀ r ∈ pre, ¬ r.id = hid) :
    (pre ++ row :: post).eraseP (fun r => r.id == hid) = pre ++ post := by
  induction pre with
  | nil => simp [List.eraseP_cons, hrow]
  | cons a tl ih =>
      have ha : ¬ a.id = hid := hpre a (List.mem_cons_self a tl)
      have htl : ∀ r ∈ tl, ¬ r.id = hid := fun r hr => hpre r (List.mem_cons_of_mem a hr)
      simp [List.eraseP_cons, ha, ih htl]

theorem open_popover_foldl_le_one (ops : List OpenOp) (st : PanelState)
    (h : st.popovers ≤ 1) : (ops.foldl open_popover st).popovers ≤ 1 := by
  induction ops generalizing st with
  | nil => exact h
  | cons op tl ih =>
      have : (open_popover st op).popovers = 1 := rfl
      exact ih (open_popover st op) (by simp [this])

/-- The non-JSON branch of `update_user_permissions` on a string body, as a
single conditional: hide the popover, then replace the unique matching row
in place if exactly one row of `#op_users` carries the fragment's id, and
append the parsed fragment otherwise. -/
theorem update_nonjson_str (ct body : String) (hct : ¬ ct = "application/json")
    (st : PanelState) :
    update_user_permissions ct (JSVal.str body) st =
      if (st.rows.filter (fun r => r.id == extractId body)).length = 1 then
        { st with
          shown := false
          rows := st.rows.map
            (fun r => if r.id == extractId body then parseFragment body else r) }
      else
        { st with shown := false, rows := st.rows ++ [parseFragment body] } := by
  unfold update_user_permissions
  rw [if_neg hct]
  rfl

/-- C1: a form-submission response whose Content-Type is JSON and whose body
is a string hides the popover (without destroying it), removes from
`#op_users` the row whose DOM identifier equals that string, keeps every
row with a different identifier, and leaves the error list unchanged. -/
theorem c1_json_string_removes_named_row (st : PanelState) (s : String) :
    (update_user_permissions "application/json" (JSVal.str s) st).shown = false ∧
    (update_user_permissions "application/json" (JSVal.str s) st).popovers = st.popovers ∧
    (update_user_permissions "application/json" (JSVal.str s) st).errors = st.errors ∧
    (∀ r : Row, r ∈ (update_user_permissions "application/json" (JSVal.str s) st).rows ↔
      r ∈ st.rows ∧ ¬ r.id = s) := by
  refine ⟨rfl, rfl, rfl, fun r => ?_⟩
  show r ∈ st.rows.filter (fun r => !(r.id == s)) ↔ _
  simp [List.mem_filter]

/-- C2: a form-submission response whose Content-Type is not JSON hides the
popover and upserts the parsed HTML fragment into `#op_users`: when the row
carrying the fragment's DOM identifier is present (identifiers being unique
within the container), that row is replaced in place at its position;
when no row carries the identifier, the fragment is appended as a new
row. -/
theorem c2_nonjson_fragment_upsert (ct body : String)
    (hct : ¬ ct = "application/json") (st : PanelState) :
    (∀ pre (old : Row) post, st.rows = pre ++ old :: post →
      old.id = extractId body →
      (∀ r ∈ pre, ¬ r.id = extractId body) →
      (∀ r ∈ post, ¬ r.id = extractId body) →
      update_user_permissions ct (JSVal.str body) st =
        { st with shown := false, rows := pre ++ parseFragment body :: post }) ∧
    ((∀ r ∈ st.rows, ¬ r.id = extractId body) →
      update_user_permissions ct (JSVal.str body) st =
        { st with shown := false, rows := st.rows ++ [parseFragment body] }) := by
  constructor
  · intro pre old post hsplit hold hpre hpost
    have hfilter : st.rows.filter (fun r => r.id == extractId body) = [old] := by
      rw [hsplit, List.filter_append, filter_beq_nil_of_no_match _ pre hpre,
        List.filter_cons]
      simp [hold, filter_beq_nil_of_no_match _ post hpost]
    have hmap : st.rows.map
        (fun r => if r.id == extractId body then parseFragment body else r)
        = pre ++ parseFragment body :: post := by
      rw [hsplit, List.map_append, List.map_cons,
        map_replace_no_match _ _ pre hpre, map_replace_no_match _ _ post hpost]
      simp [hold]
    have h1 : ([old] : List Row).length = 1 := rfl
    rw [update_nonjson_str ct body hct st, hfilter, if_pos h1, hmap]
  · intro hall
    rw [update_nonjson_str ct body hct st,
      filter_beq_nil_of_no_match _ st.rows hall]
    simp

/-- C2 witness: a concrete non-JSON response replacing the one matching row
in place. -/
theorem c2_witness :
    update_user_permissions "text/html" (JSVal.str "<div id=\"user_7\">new</div>")
      ⟨[⟨"user_7", "old"⟩], [], 1, true⟩ =
      ⟨[⟨"user_7", "<div id=\"user_7\">new</div>"⟩], [], 1, false⟩ := by
  have h := (c2_nonjson_fragment_upsert "text/html" "<div id=\"user_7\">new</div>"
    (by decide) ⟨[⟨"user_7", "old"⟩], [], 1, true⟩).1
    [] ⟨"user_7", "old"⟩ [] rfl (by decide) (by simp) (by simp)
  exact h.trans (by decide)

/-- C3: a form-submission response whose Content-Type is JSON and whose body
is an object appends one error list item per key, carrying that key's
message, leaves the popover exactly as it was (neither hidden nor
destroyed), and leaves the rows of `#op_users` untouched. -/
theorem c3_json_object_appends_errors (st : PanelState)
    (kvs : List (String × String)) :
    (update_user_permissions "application/json" (JSVal.obj kvs) st).errors =
      st.errors ++ kvs.map (fun kv => kv.2) ∧
    (update_user_permissions "application/json" (JSVal.obj kvs) st).shown = st.shown ∧
    (update_user_permissions "application/json" (JSVal.obj kvs) st).popovers =
      st.popovers ∧
    (update_user_permissions "application/json" (JSVal.obj kvs) st).rows = st.rows :=
  ⟨rfl, rfl, rfl, rfl⟩

/-- C4: a confirmed delete-user click on a row whose DOM id is
`user_<id>` destroys any open popover without touching the rows, posts
`{user: <id>, obj: obj_id}` to `user_url` with `<id>` the DOM id minus its
first 5 characters, and its success callback removes exactly the row with
that DOM id when the decoded JSON value is a string and leaves the state
untouched on every non-string JSON value. -/
theorem c4_delete_user_protocol (user_url obj_id u : String) (st : PanelState) :
    (delete_user_click user_url obj_id st ("user_" ++ u) true).1.popovers = 0 ∧
    (delete_user_click user_url obj_id st ("user_" ++ u) true).1.rows = st.rows ∧
    (delete_user_click user_url obj_id st ("user_" ++ u) true).2 =
      some ⟨user_url, ReqData.userReq u obj_id⟩ ∧
    (∀ (s : String) (st2 : PanelState) pre (row : Row) post,
      st2.rows = pre ++ row :: post → row.id = "user_" ++ u →
      (∀ r ∈ pre, ¬ r.id = "user_" ++ u) →
      (delete_user_callback u (JSVal.str s) st2).rows = pre ++ post) ∧
    (∀ (code : JSVal) (st2 : PanelState), ¬ jsTypeof code = "string" →
      delete_user_callback u code st2 = st2) := by
  refine ⟨rfl, rfl, ?_, ?_, ?_⟩
  · simp [delete_user_click, jsSubstring_user_prefix]
  · intro s st2 pre row post hsplit hrow hpre
    show (st2.rows.eraseP (fun r => r.id == "user_" ++ u)) = pre ++ post
    rw [hsplit]
    exact eraseP_single_match _ pre post row hrow hpre
  · intro code st2 hcode
    simp [delete_user_callback, hcode]

/-- C5 counterexample: with one popover open, a confirmed delete-group
click (row `group_13`) leaves the popover alive, refuting the claim that
the handler destroys any open popover the way the delete-user handler
does. -/
theorem c5_counterexample :
    (delete_group_click "url" "obj1" ⟨[], [], 1, true⟩ "group_13" true).1.popovers = 1 ∧
    ¬ (delete_group_click "url" "obj1" ⟨[], [], 1, true⟩ "group_13" true).1.popovers = 0 := by
  decide

/-- C5 (amended): a confirmed delete-group click behaves like the
delete-user click except that it does not destroy any open popover — the
panel state is left entirely unchanged at click time — it targets `.group`
rows, it posts `{group: <id>, obj: obj_id}` to `user_url` with `<id>` the
row's DOM id minus its first 6 characters (so `group_13` yields
`group=13`), and its success callback removes exactly the row with that
DOM id when the decoded JSON value is a string and changes nothing on every
non-string JSON value. -/
theorem c5_delete_group_amended (user_url obj_id g : String) (st : PanelState) :
    (delete_group_click user_url obj_id st ("group_" ++ g) true).1 = st ∧
    (delete_group_click user_url obj_id st ("group_" ++ g) true).2 =
      some ⟨user_url, ReqData.groupReq g obj_id⟩ ∧
    (∀ (s : String) (st2 : PanelState) pre (row : Row) post,
      st2.rows = pre ++ row :: post → row.id = "group_" ++ g →
      (∀ r ∈ pre, ¬ r.id = "group_" ++ g) →
      (delete_group_callback g (JSVal.str s) st2).rows = pre ++ post) ∧
    (∀ (code : JSVal) (st2 : PanelState), ¬ jsTypeof code = "string" →
      delete_group_callback g code st2 = st2) := by
  refine ⟨rfl, ?_, ?_, ?_⟩
  · simp [delete_group_click, jsSubstring_group_prefix]
  · intro s st2 pre row post hsplit hrow hpre
    show (st2.rows.eraseP (fun r => r.id == "group_" ++ g)) = pre ++ post
    rw [hsplit]
    exact eraseP_single_match _ pre post row hrow hpre
  · intro code st2 hcode
    simp [delete_group_callback, hcode]

/-- C6: every popover-opening operation (Add User or Edit Permissions, in
any order) first destroys every existing popover and then creates one, so
after each operation of any nonempty sequence exactly one popover is alive
— in particular never more than one. -/
theorem c6_at_most_one_popover (st : PanelState) (op : OpenOp) (ops : List OpenOp) :
    (open_popover st op).popovers = 1 ∧
    ((op :: ops).foldl open_popover st).popovers ≤ 1 := by
  refine ⟨rfl, ?_⟩
  rw [List.foldl_cons]
  exact open_popover_foldl_le_one ops (open_popover st op) (Nat.le_refl 1)

/-- C7: the document-ready initialization releases every binding it manages
before rebinding, so running it any positive number of times is the same as
running it once, and one click on any bound control fires its handler
exactly once. -/
theorem c7_document_ready_idempotent (b : Bindings) (n : Nat) (c : Control) :
    document_ready (document_ready b) = document_ready b ∧
    handler_fires (document_ready^[n + 1] b) c = 1 := by
  have hconst : ∀ b2 : Bindings, document_ready b2 = ⟨1, 0, 1, 1, 1⟩ := fun _ => rfl
  have hiter : ∀ m : Nat, document_ready^[m + 1] b = ⟨1, 0, 1, 1, 1⟩ := by
    intro m
    induction m with
    | zero => exact hconst b
    | succ k ih => rw [Function.iterate_succ_apply', ih, hconst]
  refine ⟨by simp [hconst], ?_⟩
  rw [hiter n]
  cases c <;> rfl

/-- C8: when the transport fails, no success callback runs, so each
network-sending operation leaves the panel exactly as it was at the moment
the request was sent: the delete flows change no row and no error item, and
the form-submit flow keeps the rows and shows no error message (its error
list holds only the pre-submission emptying). -/
theorem c8_transport_failure_frame (user_url obj_id domId : String)
    (st : PanelState) (confirmed : Bool) :
    delete_user_flow user_url obj_id st domId confirmed none =
      (delete_user_click user_url obj_id st domId confirmed).1 ∧
    (delete_user_flow user_url obj_id st domId confirmed none).rows = st.rows ∧
    (delete_user_flow user_url obj_id st domId confirmed none).errors = st.errors ∧
    delete_group_flow user_url obj_id st domId confirmed none =
      (delete_group_click user_url obj_id st domId confirmed).1 ∧
    (delete_group_flow user_url obj_id st domId confirmed none).rows = st.rows ∧
    (delete_group_flow user_url obj_id st domId confirmed none).errors = st.errors ∧
    form_submit_flow st none = { st with errors := [] } ∧
    (form_submit_flow st none).rows = st.rows ∧
    (form_submit_flow st none).errors = [] := by
  cases confirmed <;> exact ⟨rfl, rfl, rfl, rfl, rfl, rfl, rfl, rfl, rfl⟩

/-- C9: in the non-JSON branch, in-place replacement happens only when
exactly one element of `#op_users` carries the fragment's DOM identifier;
with zero or several matches the fragment is appended instead, so with
duplicate identifiers every existing row survives unchanged. -/
theorem c9_append_unless_single_match (ct body : String)
    (hct : ¬ ct = "application/json") (st : PanelState) :
    (¬ (st.rows.filter (fun r => r.id == extractId body)).length = 1 →
      (update_user_permissions ct (JSVal.str body) st).rows =
        st.rows ++ [parseFragment body]) ∧
    (2 ≤ (st.rows.filter (fun r => r.id == extractId body)).length →
      ∀ r ∈ st.rows, r ∈ (update_user_permissions ct (JSVal.str body) st).rows) ∧
    ((st.rows.filter (fun r => r.id == extractId body)).length = 1 →
      (update_user_permissions ct (JSVal.str body) st).rows =
        st.rows.map
          (fun r => if r.id == extractId body then parseFragment body else r)) := by
  rw [update_nonjson_str ct body hct st]
  refine ⟨fun h => ?_, fun h r hr => ?_, fun h => ?_⟩
  · rw [if_neg h]
  · have hne : ¬ (st.rows.filter (fun r => r.id == extractId body)).length = 1 := by
      omega
    rw [if_neg hne]
    simp [hr]
  · rw [if_pos h]

/-- C9 witness: with two rows sharing the fragment's identifier, the
fragment is appended and both existing rows survive. -/
theorem c9_witness :
    (update_user_permissions "text/html" (JSVal.str "<div id=\"user_7\">new</div>")
      ⟨[⟨"user_7", "a"⟩, ⟨"user_7", "b"⟩], [], 1, true⟩).rows =
      [⟨"user_7", "a"⟩, ⟨"user_7", "b"⟩,
        ⟨"user_7", "<div id=\"user_7\">new</div>"⟩] := by
  have h := (c9_append_unless_single_match "text/html" "<div id=\"user_7\">new</div>"
    (by decide) ⟨[⟨"user_7", "a"⟩, ⟨"user_7", "b"⟩], [], 1, true⟩).1 (by decide)
  exact h.trans (by decide)

/-- C10: a delete-user or delete-group click whose confirmation prompt is
declined sends no request and leaves the whole panel state — popover
included — exactly as it was. -/
theorem c10_declined_confirm_noop (user_url obj_id domId : String)
    (st : PanelState) :
    delete_user_click user_url obj_id st domId false = (st, none) ∧
    delete_group_click user_url obj_id st domId false = (st, none) :=
  ⟨rfl, rfl⟩
